import Mathlib

/-!
Shallow embedding of the event-driven order system
(services/order-service, services/analytics-service,
services/notification-worker) and proofs of the specification claims.

Conventions of the embedding:
* Go `string` is `String`, Go `int` is `Int`, Go `float64` amounts are
  `Rat` (no claim depends on floating-point rounding), `time.Time` is a
  `Nat` tick count.
* The MySQL stores are Lean lists (the orders table in insertion order,
  the order_metrics table in insertion order); the Redis caches are
  association lists / an `Option` for the single summary key.
* Fallible external effects (MySQL write, Redis SET/DEL) are driven by
  Boolean fault switches in an environment record, so the best-effort
  paths of the code are visible in the model.
* each `time.Now()` call is modelled as a clock reading supplied by the
  environment: `CreateOrder` performs two readings (one per timestamp
  field, in source order), the analytics operations one reading each.
* `uuid.New().String()` is modelled as the environment supplying the
  generated id (`newId`); uuid's guarantees (non-empty, fresh) become
  explicit hypotheses where a claim needs them.
-/

namespace EventOrder

/-- Order mirrors `order-service/internal/model/order.go` `Order`. -/
structure Order where
  id : String
  customerID : String
  productID : String
  quantity : Int
  totalAmount : Rat
  status : String
  createdAt : Nat
  updatedAt : Nat
deriving DecidableEq, Repr

/-- CreateOrderRequest mirrors `model.CreateOrderRequest`. -/
structure CreateOrderRequest where
  customerID : String
  productID : String
  quantity : Int
  totalAmount : Rat
deriving DecidableEq, Repr

/-- OrderCreatedEvent mirrors `model.OrderCreatedEvent` (same shape in the
order service and the analytics service / notification worker models). -/
structure OrderCreatedEvent where
  orderID : String
  customerID : String
  productID : String
  quantity : Int
  totalAmount : Rat
  status : String
  createdAt : Nat
  eventType : String
deriving DecidableEq, Repr

/-- OrderStatusPending mirrors the constant `model.OrderStatusPending`. -/
def OrderStatusPending : String := "pending"

/-- Errors returned by the order service, tagged with the spec's taxonomy
(§7). Each constructor corresponds to a distinct `fmt.Errorf` site in
`order_service.go` / `order_repository.go`; the carried string is the
code's message. -/
inductive OrderError where
  | validationError (msg : String)
  | persistenceError (msg : String)
  | notFoundError (msg : String)
deriving DecidableEq, Repr

/-- State owned by the order service: the MySQL `orders` table (insertion
order = creation order) and the Redis order cache (keyed by order id). -/
structure OrderSvcState where
  store : List Order
  cache : List (String × Order)
deriving DecidableEq, Repr

/-- Environment of one order-service request: the uuid generator's output;
the two `time.Now()` readings taken while building the order
(order_service.go:53-54 calls `time.Now()` once for `CreatedAt` and again
for `UpdatedAt`; Go evaluates composite-literal fields in source order, so
`now1` is the `CreatedAt` reading and `now2` the `UpdatedAt` reading, and
the real monotonic clock guarantees `now1 ≤ now2` but not `now1 = now2`);
and the fault switches of the MySQL write and Redis SET. -/
structure OrderEnv where
  newId : String
  now1 : Nat
  now2 : Nat
  dbOk : Bool
  cacheSetOk : Bool
deriving DecidableEq, Repr

/-- cacheGet mirrors `RedisOrderCache.Get`: a Redis GET on `order:<id>`.
The service (`GetOrderByID`) treats every non-nil error from `Get` — miss
or Redis failure — the same way (fall through to the database), so the
model collapses both to `none`. -/
def cacheGet (c : List (String × Order)) (id : String) : Option Order :=
  (c.find? (fun p => p.1 = id)).map (fun p => p.2)

/-- cacheSet mirrors `RedisOrderCache.Set`: SET `order:<id>` overwrites any
previous entry for the same key. -/
def cacheSet (c : List (String × Order)) (o : Order) : List (String × Order) :=
  (o.id, o) :: c.filter (fun p => p.1 ≠ o.id)

/-- storeGet mirrors `MySQLOrderRepository.GetByID`: `SELECT ... WHERE id = ?`
(`id` is the primary key, so the first match is the row). -/
def storeGet (store : List Order) (id : String) : Option Order :=
  store.find? (fun o => o.id = id)

/-- validateCreateOrder mirrors the three sequential validation checks at
the top of `OrderService.CreateOrder` (order_service.go:35-43), returning
the code's error message for the first violated check. -/
def validateCreateOrder (req : CreateOrderRequest) : Option String :=
  if req.customerID = "" ∨ req.productID = "" then
    some "customer_id and product_id are required"
  else if req.quantity ≤ 0 then
    some "quantity must be greater than 0"
  else if req.totalAmount ≤ 0 then
    some "total_amount must be greater than 0"
  else
    none

/-- buildOrder mirrors the `model.Order` literal built in
`OrderService.CreateOrder` (order_service.go:46-55): fresh uuid, request
fields, status pending, and each timestamp from its own `time.Now()` call
— `CreatedAt` from the first reading, `UpdatedAt` from the second. -/
def buildOrder (env : OrderEnv) (req : CreateOrderRequest) : Order :=
  { id := env.newId
    customerID := req.customerID
    productID := req.productID
    quantity := req.quantity
    totalAmount := req.totalAmount
    status := OrderStatusPending
    createdAt := env.now1
    updatedAt := env.now2 }

/-- createOrder mirrors `OrderService.CreateOrder` (order_service.go:33-86):
validate; build the order; `repo.Create` (failure is fatal to the request
and nothing is written); `cache.Set` best-effort (failure logged, not
surfaced); the event publish runs in a detached goroutine and is not part
of the request's outcome (its payload is `publishOrderCreated` below). -/
def createOrder (st : OrderSvcState) (env : OrderEnv) (req : CreateOrderRequest) :
    Except OrderError Order × OrderSvcState :=
  match validateCreateOrder req with
  | some msg => (Except.error (OrderError.validationError msg), st)
  | none =>
    let order := buildOrder env req
    if env.dbOk then
      let st1 : OrderSvcState := { st with store := st.store ++ [order] }
      let st2 : OrderSvcState :=
        if env.cacheSetOk then { st1 with cache := cacheSet st1.cache order } else st1
      (Except.ok order, st2)
    else
      (Except.error (OrderError.persistenceError "failed to create order"), st)

/-- createOrderHttpStatus mirrors `OrderHandler.CreateOrder`
(order_handler.go:49-56): every error from the service is answered with
`http.StatusInternalServerError` (500); success with `http.StatusCreated`
(201). -/
def createOrderHttpStatus (r : Except OrderError Order) : Nat :=
  match r with
  | Except.error _ => 500
  | Except.ok _ => 201

/-- isClientErrorStatus holds for HTTP 4xx client-error status codes. -/
def isClientErrorStatus (code : Nat) : Prop := 400 ≤ code ∧ code < 500

instance (code : Nat) : Decidable (isClientErrorStatus code) := by
  unfold isClientErrorStatus; infer_instance

deriving instance DecidableEq for Except

/-- Result of `getOrderByID`, instrumented with the number of database
reads the call performed (the spec's "store-read counter"). -/
structure GetOrderResult where
  result : Except OrderError Order
  state : OrderSvcState
  storeReads : Nat
deriving DecidableEq, Repr

/-- getOrderByID mirrors `OrderService.GetOrderByID` (order_service.go:88-111):
cache first; on any cache error fall through to `repo.GetByID`; a store miss
is the repository's "order not found" error; on a store hit re-populate the
cache best-effort and return the stored order. -/
def getOrderByID (st : OrderSvcState) (env : OrderEnv) (id : String) : GetOrderResult :=
  match cacheGet st.cache id with
  | some o => { result := Except.ok o, state := st, storeReads := 0 }
  | none =>
    match storeGet st.store id with
    | none =>
      { result := Except.error (OrderError.notFoundError "order not found")
        state := st
        storeReads := 1 }
    | some o =>
      let st' : OrderSvcState :=
        if env.cacheSetOk then { st with cache := cacheSet st.cache o } else st
      { result := Except.ok o, state := st', storeReads := 1 }

/-- insertByCreatedDesc places an order into a list that is sorted by
`createdAt` descending, keeping the list sorted. -/
def insertByCreatedDesc (o : Order) : List Order → List Order
  | [] => [o]
  | x :: xs =>
    if x.createdAt < o.createdAt then o :: x :: xs else x :: insertByCreatedDesc o xs

/-- sortByCreatedDesc models the SQL `ORDER BY created_at DESC` of
`MySQLOrderRepository.List` (insertion sort; SQL fixes no order among equal
keys, and neither do the claims). -/
def sortByCreatedDesc : List Order → List Order
  | [] => []
  | x :: xs => insertByCreatedDesc x (sortByCreatedDesc xs)

/-- repoList mirrors `MySQLOrderRepository.List` (order_repository.go:89-127):
`SELECT ... ORDER BY created_at DESC LIMIT ? OFFSET ?`. -/
def repoList (store : List Order) (limit offset : Int) : List Order :=
  (((sortByCreatedDesc store).drop offset.toNat).take limit.toNat)

/-- clampLimit mirrors the two sequential limit adjustments in
`OrderService.ListOrders` (order_service.go:114-119). -/
def clampLimit (limit : Int) : Int :=
  let l1 := if limit ≤ 0 then 10 else limit
  if l1 > 100 then 100 else l1

/-- clampOffset mirrors the offset adjustment in `OrderService.ListOrders`
(order_service.go:120-122). -/
def clampOffset (offset : Int) : Int :=
  if offset < 0 then 0 else offset

/-- Result of `listOrders`, instrumented with the limit/offset actually
passed to the repository and with cache-interaction counters (the Go body
of `ListOrders` performs no cache call, which the counters make
observable). -/
structure ListOrdersResult where
  orders : List Order
  passedLimit : Int
  passedOffset : Int
  cacheReads : Nat
  cacheWrites : Nat
deriving DecidableEq, Repr

/-- listOrders mirrors `OrderService.ListOrders` (order_service.go:113-131):
clamp limit and offset, then a single `repo.List` call; the order cache is
never consulted. -/
def listOrders (st : OrderSvcState) (limit offset : Int) : ListOrdersResult :=
  let l := clampLimit limit
  let o := clampOffset offset
  { orders := repoList st.store l o
    passedLimit := l
    passedOffset := o
    cacheReads := 0
    cacheWrites := 0 }

/-! Event publish path, `order-service/internal/mq/publisher.go`. -/

/-- JSON values appearing in the serialized event envelope. -/
inductive JVal where
  | str (s : String)
  | int (n : Int)
  | num (q : Rat)
deriving DecidableEq, Repr

/-- encodeOrderCreatedEvent models `json.Marshal` of a
`model.OrderCreatedEvent`: one JSON field per struct field, named by the
struct's json tags (order.go:29-38). -/
def encodeOrderCreatedEvent (e : OrderCreatedEvent) : List (String × JVal) :=
  [ ("order_id", JVal.str e.orderID)
  , ("customer_id", JVal.str e.customerID)
  , ("product_id", JVal.str e.productID)
  , ("quantity", JVal.int e.quantity)
  , ("total_amount", JVal.num e.totalAmount)
  , ("status", JVal.str e.status)
  , ("created_at", JVal.int (Int.ofNat e.createdAt))
  , ("event_type", JVal.str e.eventType) ]

/-- exchangeName mirrors the constant in publisher.go (and consumer.go). -/
def exchangeName : String := "orders"

/-- exchangeType mirrors the constant in publisher.go (and consumer.go). -/
def exchangeType : String := "topic"

/-- routingKey mirrors the constant in publisher.go (and consumer.go). -/
def routingKey : String := "order.created"

/-- amqpPersistent is `amqp.Persistent`, the delivery-mode byte (2) that
marks a message persistent. -/
def amqpPersistent : Nat := 2

/-- exchangeDurable mirrors the `durable = true` argument of the
`ExchangeDeclare` call in `NewRabbitMQPublisher` (publisher.go:47-55). -/
def exchangeDurable : Bool := true

/-- One AMQP basic.publish as performed by the publisher. -/
structure PublishAction where
  exchange : String
  key : String
  contentType : String
  body : List (String × JVal)
  deliveryMode : Nat
deriving DecidableEq, Repr

/-- publishOrderCreated mirrors `RabbitMQPublisher.PublishOrderCreated`
(publisher.go:70-97): stamp `event.EventType = "OrderCreated"`, marshal the
stamped event, publish to the `orders` exchange under `order.created` with
persistent delivery mode. -/
def publishOrderCreated (event : OrderCreatedEvent) : PublishAction :=
  let stamped : OrderCreatedEvent := { event with eventType := "OrderCreated" }
  { exchange := exchangeName
    key := routingKey
    contentType := "application/json"
    body := encodeOrderCreatedEvent stamped
    deliveryMode := amqpPersistent }

/-! Consumer loop, shared shape of
`analytics-service/internal/mq/consumer.go` `StartConsuming` and the
message loop of `notification-worker/cmd/notification-worker/main.go`. -/

/-- Broker-visible outcome of processing one delivery: `Ack(false)`,
`Nack(false, true)` (requeue) or `Nack(false, false)` (drop). -/
inductive AckOutcome where
  | ack
  | nackRequeue
  | nackDrop
deriving DecidableEq, Repr

/-- consumeMessage is the per-message body shared by both consumer loops
(consumer.go:139-159, notification-worker main.go:185-211): `json.Unmarshal`
(modelled by the `parse` parameter), on failure `Nack(false,false)` and
`continue`; otherwise run the handler over its state `s`; handler error is
`Nack(false,true)`; handler success is `Ack(false)` with the new state. -/
def consumeMessage {σ : Type} (parse : String → Option OrderCreatedEvent)
    (handle : OrderCreatedEvent → σ → Except String σ) (s : σ) (body : String) :
    AckOutcome × σ :=
  match parse body with
  | none => (AckOutcome.nackDrop, s)
  | some e =>
    match handle e s with
    | Except.error _ => (AckOutcome.nackRequeue, s)
    | Except.ok s' => (AckOutcome.ack, s')

/-- queueAfter gives the broker queue after the outcome of the delivered
head message: ack and drop remove it permanently; nack-with-requeue puts it
back for redelivery. -/
def queueAfter (msg : String) (rest : List String) : AckOutcome → List String
  | AckOutcome.ack => rest
  | AckOutcome.nackDrop => rest
  | AckOutcome.nackRequeue => msg :: rest

/-! Analytics service,
`analytics-service/internal/service/analytics_service.go` (unnamed
source part) and `internal/repository/analytics_repository.go`. -/

/-- OrderMetric mirrors `analytics model.OrderMetric` (the row shape of the
`order_metrics` table; the auto-increment `id` column plays no role in any
claim and is left out of the row model). -/
structure OrderMetric where
  orderID : String
  customerID : String
  productID : String
  quantity : Int
  totalAmount : Rat
  processedAt : Nat
deriving DecidableEq, Repr

/-- AnalyticsSummary mirrors `analytics model.AnalyticsSummary`. -/
structure AnalyticsSummary where
  totalOrders : Nat
  totalRevenue : Rat
  averageOrderSize : Rat
  lastUpdated : Nat
deriving DecidableEq, Repr

/-- State owned by the analytics service: the append-only `order_metrics`
table and the single-key Redis summary cache (`analytics:summary`). -/
structure AnalyticsState where
  metrics : List OrderMetric
  summaryCache : Option AnalyticsSummary
deriving DecidableEq, Repr

/-- Environment of one analytics-service operation: the clock and the
fault switches of the MySQL access, the Redis SET and the Redis DEL. -/
structure AnalyticsEnv where
  now : Nat
  dbOk : Bool
  cacheSetOk : Bool
  cacheDelOk : Bool
deriving DecidableEq, Repr

/-- mkOrderMetric mirrors the `model.OrderMetric` literal built in
`AnalyticsService.ProcessOrderEvent`: the event's fields plus
`ProcessedAt = time.Now()`. -/
def mkOrderMetric (event : OrderCreatedEvent) (now : Nat) : OrderMetric :=
  { orderID := event.orderID
    customerID := event.customerID
    productID := event.productID
    quantity := event.quantity
    totalAmount := event.totalAmount
    processedAt := now }

/-- totalRevenueOf is SQL `SUM(total_amount)` over the metric rows. -/
def totalRevenueOf (ms : List OrderMetric) : Rat :=
  ms.foldr (fun m acc => m.totalAmount + acc) 0

/-- repoGetSummary mirrors `MySQLAnalyticsRepository.GetSummary`
(analytics_repository.go:52-76): `COUNT(*)`, `COALESCE(SUM(total_amount),0)`,
`COALESCE(AVG(total_amount),0)` — `AVG` of zero rows is NULL, which the
COALESCE turns into 0 — and `LastUpdated = time.Now()`. -/
def repoGetSummary (ms : List OrderMetric) (now : Nat) : AnalyticsSummary :=
  { totalOrders := ms.length
    totalRevenue := totalRevenueOf ms
    averageOrderSize := if ms.length = 0 then 0 else totalRevenueOf ms / (ms.length : Rat)
    lastUpdated := now }

/-- processOrderEvent mirrors `AnalyticsService.ProcessOrderEvent`: build
the metric; `repo.SaveOrderMetric` (failure returns the error, nothing else
happens); then `cache.InvalidateSummary` best-effort (a DEL failure is
logged and absorbed). -/
def processOrderEvent (st : AnalyticsState) (env : AnalyticsEnv)
    (event : OrderCreatedEvent) : Except String Unit × AnalyticsState :=
  if env.dbOk then
    let st1 : AnalyticsState := { st with metrics := st.metrics ++ [mkOrderMetric event env.now] }
    let st2 : AnalyticsState :=
      if env.cacheDelOk then { st1 with summaryCache := none } else st1
    (Except.ok (), st2)
  else
    (Except.error "failed to save order metric", st)

/-- Result of `getSummary`. -/
structure SummaryResult where
  result : Except String AnalyticsSummary
  state : AnalyticsState
deriving DecidableEq, Repr

/-- getSummary mirrors `AnalyticsService.GetSummary` (cache-aside): cache
hit returns the cached summary; on a miss (or any cache read error, which
the code treats identically) recompute from the `order_metrics` table,
write back to the cache best-effort, and return. A database failure on the
miss path is the only error outcome. -/
def getSummary (st : AnalyticsState) (env : AnalyticsEnv) : SummaryResult :=
  match st.summaryCache with
  | some s => { result := Except.ok s, state := st }
  | none =>
    if env.dbOk then
      let s := repoGetSummary st.metrics env.now
      let st' : AnalyticsState :=
        if env.cacheSetOk then { st with summaryCache := some s } else st
      { result := Except.ok s, state := st' }
    else
      { result := Except.error "failed to get summary", state := st }

/-! Helper lemmas about the sort used by `repoList`. -/

/-- DescByCreated states that a list of orders is ordered by creation time,
descending (every later element was created no later than every earlier
one). -/
def DescByCreated (l : List Order) : Prop :=
  l.Pairwise (fun a b => b.createdAt ≤ a.createdAt)

instance (l : List Order) : Decidable (DescByCreated l) := by
  unfold DescByCreated; infer_instance

lemma insertByCreatedDesc_perm (o : Order) (l : List Order) :
    List.Perm (insertByCreatedDesc o l) (o :: l) := by
  induction l with
  | nil => exact List.Perm.refl _
  | cons x xs ih =>
    by_cases h : x.createdAt < o.createdAt
    · simp [insertByCreatedDesc, h]
    · simp only [insertByCreatedDesc, if_neg h]
      exact (ih.cons x).trans (List.Perm.swap o x xs)

lemma descByCreated_insert (o : Order) (l : List Order) (h : DescByCreated l) :
    DescByCreated (insertByCreatedDesc o l) := by
  induction l with
  | nil => simp [insertByCreatedDesc, DescByCreated]
  | cons x xs ih =>
    rw [DescByCreated, List.pairwise_cons] at h
    obtain ⟨hx, hxs⟩ := h
    by_cases hlt : x.createdAt < o.createdAt
    · rw [DescByCreated]
      simp only [insertByCreatedDesc, if_pos hlt]
      constructor
      · intro b hb
        rcases List.mem_cons.mp hb with rfl | hb'
        · exact le_of_lt hlt
        · exact le_trans (hx b hb') (le_of_lt hlt)
      · exact List.Pairwise.cons hx hxs
    · rw [DescByCreated]
      simp only [insertByCreatedDesc, if_neg hlt]
      constructor
      · intro b hb
        rcases List.mem_cons.mp ((insertByCreatedDesc_perm o xs).mem_iff.mp hb) with rfl | hb'
        · exact le_of_not_lt hlt
        · exact hx b hb'
      · exact ih hxs

lemma descByCreated_sort (l : List Order) : DescByCreated (sortByCreatedDesc l) := by
  induction l with
  | nil => simp [sortByCreatedDesc, DescByCreated]
  | cons x xs ih => exact descByCreated_insert x _ ih

lemma descByCreated_repoList (store : List Order) (limit offset : Int) :
    DescByCreated (repoList store limit offset) := by
  have hsub : List.Sublist (repoList store limit offset) (sortByCreatedDesc store) :=
    (List.take_sublist _ _).trans (List.drop_sublist _ _)
  exact List.Pairwise.sublist hsub (descByCreated_sort store)

lemma repoList_length_le (store : List Order) (limit offset : Int) :
    (repoList store limit offset).length ≤ limit.toNat := by
  unfold repoList
  calc ((sortByCreatedDesc store).drop offset.toNat |>.take limit.toNat).length
      = min limit.toNat ((sortByCreatedDesc store).drop offset.toNat).length :=
        List.length_take _ _
    _ ≤ limit.toNat := min_le_left _ _

lemma cacheGet_cacheSet_self (c : List (String × Order)) (o : Order) (id : String)
    (h : o.id = id) : cacheGet (cacheSet c o) id = some o := by
  subst h
  simp [cacheGet, cacheSet, List.find?_cons]

/-! Claim theorems. -/

/-- Claim C7: for every pair of integers (limit, offset), ListOrders clamps
limit into [1,100] with default 10, clamps offset into [0,∞), passes the
clamped values to the store, and never consults the Order Cache. -/
theorem claim_C7_list_orders_clamping (st : OrderSvcState) (limit offset : Int) :
    (listOrders st limit offset).passedLimit = clampLimit limit ∧
    (listOrders st limit offset).passedOffset = clampOffset offset ∧
    1 ≤ clampLimit limit ∧ clampLimit limit ≤ 100 ∧
    (limit ≤ 0 → clampLimit limit = 10) ∧
    (1 ≤ limit → limit ≤ 100 → clampLimit limit = limit) ∧
    (100 < limit → clampLimit limit = 100) ∧
    0 ≤ clampOffset offset ∧
    (offset < 0 → clampOffset offset = 0) ∧
    (0 ≤ offset → clampOffset offset = offset) ∧
    (listOrders st limit offset).orders = repoList st.store (clampLimit limit) (clampOffset offset) ∧
    (listOrders st limit offset).cacheReads = 0 ∧
    (listOrders st limit offset).cacheWrites = 0 := by
  refine ⟨rfl, rfl, ?_, ?_, ?_, ?_, ?_, ?_, ?_, ?_, rfl, rfl, rfl⟩
  all_goals first
    | (unfold clampLimit; dsimp only; split_ifs <;> omega)
    | (unfold clampOffset; split_ifs <;> omega)

/-- Claim C7 witness: the clamping at the concrete inputs limit = 0,
offset = -5 applied through `claim_C7_list_orders_clamping`. -/
theorem claim_C7_list_orders_clamping_witness :
    clampLimit 0 = 10 ∧ clampOffset (-5) = 0 ∧
    (listOrders (OrderSvcState.mk [] []) 0 (-5)).cacheReads = 0 := by
  obtain ⟨-, -, -, -, h5, -, -, -, h9, -, -, h12, -⟩ :=
    claim_C7_list_orders_clamping (OrderSvcState.mk [] []) 0 (-5)
  exact ⟨h5 (by decide), h9 (by decide), h12⟩

/-- Claim C9: PublishOrderCreated stamps the event-type discriminator to
"OrderCreated", serializes all event fields into the JSON body, and
publishes to the durable topic exchange "orders" under the fixed routing
key "order.created" with persistent delivery mode. -/
theorem claim_C9_publish_order_created (e : OrderCreatedEvent) :
    (publishOrderCreated e).exchange = "orders" ∧
    exchangeDurable = true ∧
    exchangeType = "topic" ∧
    (publishOrderCreated e).key = "order.created" ∧
    (publishOrderCreated e).deliveryMode = amqpPersistent ∧
    (publishOrderCreated e).body =
      [ ("order_id", JVal.str e.orderID)
      , ("customer_id", JVal.str e.customerID)
      , ("product_id", JVal.str e.productID)
      , ("quantity", JVal.int e.quantity)
      , ("total_amount", JVal.num e.totalAmount)
      , ("status", JVal.str e.status)
      , ("created_at", JVal.int (Int.ofNat e.createdAt))
      , ("event_type", JVal.str "OrderCreated") ] :=
  ⟨rfl, rfl, rfl, rfl, rfl, rfl⟩

/-- Claim C10: on an empty AggregateMetric table the repository summary
succeeds and returns zero totals — in particular the average over the empty
set is guarded to 0 instead of erroring — and the service-level GetSummary
succeeds whenever the database is reachable. -/
theorem claim_C10_empty_summary (env : AnalyticsEnv) (hdb : env.dbOk = true) :
    (repoGetSummary [] env.now).totalOrders = 0 ∧
    (repoGetSummary [] env.now).totalRevenue = 0 ∧
    (repoGetSummary [] env.now).averageOrderSize = 0 ∧
    (getSummary (AnalyticsState.mk [] none) env).result =
      Except.ok (repoGetSummary [] env.now) := by
  refine ⟨rfl, rfl, rfl, ?_⟩
  simp [getSummary, hdb]

/-- Claim C10 witness: the empty-table summary at a concrete environment
through `claim_C10_empty_summary`. -/
theorem claim_C10_empty_summary_witness :
    (AnalyticsEnv.mk 7 true true true).dbOk = true ∧
    (repoGetSummary [] 7).totalOrders = 0 ∧
    (repoGetSummary [] 7).totalRevenue = 0 ∧
    (repoGetSummary [] 7).averageOrderSize = 0 ∧
    (getSummary (AnalyticsState.mk [] none) (AnalyticsEnv.mk 7 true true true)).result =
      Except.ok (repoGetSummary [] 7) := by
  have h := claim_C10_empty_summary (AnalyticsEnv.mk 7 true true true) rfl
  exact ⟨rfl, h.1, h.2.1, h.2.2.1, h.2.2.2⟩

/-- Claim C4: for every delivered message exactly one of three outcomes
occurs, in both consumer loops (the analytics consumer and the
notification worker instantiate `consumeMessage` with their own handler
and state): a payload that fails to deserialize is nacked without requeue
and permanently dropped with no state change; a parsed message whose
handler errors is nacked with requeue; a handled message is acked and
removed from the queue. -/
theorem claim_C4_consumer_ack_semantics (σ : Type)
    (parse : String → Option OrderCreatedEvent)
    (handle : OrderCreatedEvent → σ → Except String σ)
    (s : σ) (msg : String) (rest : List String) :
    ((consumeMessage parse handle s msg).1 = AckOutcome.ack ∨
     (consumeMessage parse handle s msg).1 = AckOutcome.nackRequeue ∨
     (consumeMessage parse handle s msg).1 = AckOutcome.nackDrop) ∧
    (parse msg = none →
       consumeMessage parse handle s msg = (AckOutcome.nackDrop, s) ∧
       queueAfter msg rest (consumeMessage parse handle s msg).1 = rest) ∧
    (∀ e err, parse msg = some e → handle e s = Except.error err →
       consumeMessage parse handle s msg = (AckOutcome.nackRequeue, s) ∧
       queueAfter msg rest (consumeMessage parse handle s msg).1 = msg :: rest) ∧
    (∀ e s', parse msg = some e → handle e s = Except.ok s' →
       consumeMessage parse handle s msg = (AckOutcome.ack, s') ∧
       queueAfter msg rest (consumeMessage parse handle s msg).1 = rest) := by
  refine ⟨?_, ?_, ?_, ?_⟩
  · rcases h : (consumeMessage parse handle s msg).1 with _ | _ | _ <;> simp
  · intro hp
    simp [consumeMessage, hp, queueAfter]
  · intro e err hp hh
    simp [consumeMessage, hp, hh, queueAfter]
  · intro e s' hp hh
    simp [consumeMessage, hp, hh, queueAfter]

/-- Concrete parse function for the C4 witness: only the single payload
"good" deserializes. -/
def parseOnlyGood : String → Option OrderCreatedEvent := fun body =>
  if body = "good" then
    some (OrderCreatedEvent.mk "o-1" "c-1" "p-1" 1 10 "pending" 0 "OrderCreated")
  else none

/-- Concrete counting handler for the C4 witness: always succeeds. -/
def countingHandle : OrderCreatedEvent → Nat → Except String Nat :=
  fun _ n => Except.ok (n + 1)

/-- Claim C4 witness: the drop and ack paths at concrete inputs through
`claim_C4_consumer_ack_semantics`. -/
theorem claim_C4_consumer_ack_semantics_witness :
    parseOnlyGood "bad" = none ∧
    consumeMessage parseOnlyGood countingHandle 0 "bad" = (AckOutcome.nackDrop, 0) ∧
    consumeMessage parseOnlyGood countingHandle 0 "good" = (AckOutcome.ack, 1) := by
  refine ⟨rfl, ?_, ?_⟩
  · exact ((claim_C4_consumer_ack_semantics Nat parseOnlyGood countingHandle 0 "bad" []).2.1 rfl).1
  · exact ((claim_C4_consumer_ack_semantics Nat parseOnlyGood countingHandle 0 "good" []).2.2.2
      (OrderCreatedEvent.mk "o-1" "c-1" "p-1" 1 10 "pending" 0 "OrderCreated") 1 rfl rfl).1

/-- Claim C5: on every successfully parsed event the analytics handler
appends exactly one AggregateMetric row carrying the event's order id,
customer and product references, quantity and amount; after a successful
append it attempts the summary-cache invalidation unconditionally (a DEL
failure is absorbed and does not fail the handler); it returns an error
exactly when the append fails, and then nothing is invalidated. -/
theorem claim_C5_process_order_event (st : AnalyticsState) (env : AnalyticsEnv)
    (e : OrderCreatedEvent) :
    (env.dbOk = true →
       (processOrderEvent st env e).1 = Except.ok () ∧
       (processOrderEvent st env e).2.metrics = st.metrics ++ [mkOrderMetric e env.now] ∧
       mkOrderMetric e env.now =
         OrderMetric.mk e.orderID e.customerID e.productID e.quantity e.totalAmount env.now ∧
       (env.cacheDelOk = true → (processOrderEvent st env e).2.summaryCache = none) ∧
       (env.cacheDelOk = false →
          (processOrderEvent st env e).2.summaryCache = st.summaryCache)) ∧
    (env.dbOk = false →
       (processOrderEvent st env e).1 = Except.error "failed to save order metric" ∧
       (processOrderEvent st env e).2 = st) := by
  constructor
  · intro hdb
    refine ⟨?_, ?_, rfl, ?_, ?_⟩
    · simp [processOrderEvent, hdb]
    · by_cases hdel : env.cacheDelOk <;> simp [processOrderEvent, hdb, hdel]
    · intro hdel; simp [processOrderEvent, hdb, hdel]
    · intro hdel; simp [processOrderEvent, hdb, hdel]
  · intro hdb
    simp [processOrderEvent, hdb]

/-- Claim C5 witness: a concrete event processed against an empty metrics
table with a healthy database and cache, through
`claim_C5_process_order_event`. -/
theorem claim_C5_process_order_event_witness :
    (AnalyticsEnv.mk 3 true true true).dbOk = true ∧
    (processOrderEvent (AnalyticsState.mk [] none) (AnalyticsEnv.mk 3 true true true)
        (OrderCreatedEvent.mk "o-1" "c-1" "p-1" 2 100 "pending" 1 "OrderCreated")).1 =
      Except.ok () ∧
    (processOrderEvent (AnalyticsState.mk [] none) (AnalyticsEnv.mk 3 true true true)
        (OrderCreatedEvent.mk "o-1" "c-1" "p-1" 2 100 "pending" 1 "OrderCreated")).2.metrics =
      [OrderMetric.mk "o-1" "c-1" "p-1" 2 100 3] := by
  have h := claim_C5_process_order_event (AnalyticsState.mk [] none)
    (AnalyticsEnv.mk 3 true true true)
    (OrderCreatedEvent.mk "o-1" "c-1" "p-1" 2 100 "pending" 1 "OrderCreated")
  obtain ⟨hok, hmet, -, -, -⟩ := h.1 rfl
  exact ⟨rfl, hok, by simp [hmet, mkOrderMetric]⟩

/-- Claim C2 counterexample: `CreateOrder` takes two separate `time.Now()`
readings, one per timestamp field (order_service.go:53-54). At a valid
request during which the clock advances between the two reads (first
reading 0, second reading 1), the returned order has created_at 0 and
updated_at 1, refuting the claimed created_at = updated_at even though the
id, status and persistence behave as claimed. -/
theorem claim_C2_counterexample :
    (createOrder (OrderSvcState.mk [] []) (OrderEnv.mk "id-1" 0 1 true true)
        (CreateOrderRequest.mk "customer-123" "product-456" 2 100)).1 =
      Except.ok (buildOrder (OrderEnv.mk "id-1" 0 1 true true)
        (CreateOrderRequest.mk "customer-123" "product-456" 2 100)) ∧
    (buildOrder (OrderEnv.mk "id-1" 0 1 true true)
        (CreateOrderRequest.mk "customer-123" "product-456" 2 100)).status =
      OrderStatusPending ∧
    (buildOrder (OrderEnv.mk "id-1" 0 1 true true)
        (CreateOrderRequest.mk "customer-123" "product-456" 2 100)).createdAt = 0 ∧
    (buildOrder (OrderEnv.mk "id-1" 0 1 true true)
        (CreateOrderRequest.mk "customer-123" "product-456" 2 100)).updatedAt = 1 ∧
    (buildOrder (OrderEnv.mk "id-1" 0 1 true true)
        (CreateOrderRequest.mk "customer-123" "product-456" 2 100)).createdAt ≠
      (buildOrder (OrderEnv.mk "id-1" 0 1 true true)
        (CreateOrderRequest.mk "customer-123" "product-456" 2 100)).updatedAt :=
  ⟨by decide, by decide, by decide, by decide, by decide⟩

/-- Claim C2 as amended: for every valid creation request, CreateOrder
returns an order with the freshly generated id — non-empty and previously
unseen under uuid's guarantees, stated as hypotheses — and status pending;
created_at and updated_at are the first and second clock readings taken
during the request, so under the clock's monotonicity created_at ≤
updated_at, with equality exactly when the two consecutive readings
coincide. -/
theorem claim_C2_create_valid_request (st : OrderSvcState) (env : OrderEnv)
    (req : CreateOrderRequest)
    (hval : validateCreateOrder req = none) (hdb : env.dbOk = true)
    (hid : env.newId ≠ "") (hfresh : env.newId ∉ st.store.map Order.id)
    (hmono : env.now1 ≤ env.now2) :
    (createOrder st env req).1 = Except.ok (buildOrder env req) ∧
    (buildOrder env req).id ≠ "" ∧
    (buildOrder env req).id ∉ st.store.map Order.id ∧
    (buildOrder env req).status = OrderStatusPending ∧
    (buildOrder env req).createdAt = env.now1 ∧
    (buildOrder env req).updatedAt = env.now2 ∧
    (buildOrder env req).createdAt ≤ (buildOrder env req).updatedAt ∧
    ((buildOrder env req).createdAt = (buildOrder env req).updatedAt ↔
      env.now1 = env.now2) := by
  refine ⟨?_, hid, hfresh, rfl, rfl, rfl, hmono, Iff.rfl⟩
  simp [createOrder, hval, hdb]

/-- Claim C2 witness: a concrete valid request against an empty store, with
both clock readings at tick 5, through `claim_C2_create_valid_request`. -/
theorem claim_C2_create_valid_request_witness :
    validateCreateOrder (CreateOrderRequest.mk "customer-123" "product-456" 2 100) = none ∧
    (OrderEnv.mk "id-1" 5 5 true true).dbOk = true ∧
    (OrderEnv.mk "id-1" 5 5 true true).newId ≠ "" ∧
    (OrderEnv.mk "id-1" 5 5 true true).now1 ≤ (OrderEnv.mk "id-1" 5 5 true true).now2 ∧
    (createOrder (OrderSvcState.mk [] []) (OrderEnv.mk "id-1" 5 5 true true)
        (CreateOrderRequest.mk "customer-123" "product-456" 2 100)).1 =
      Except.ok (buildOrder (OrderEnv.mk "id-1" 5 5 true true)
        (CreateOrderRequest.mk "customer-123" "product-456" 2 100)) ∧
    (buildOrder (OrderEnv.mk "id-1" 5 5 true true)
        (CreateOrderRequest.mk "customer-123" "product-456" 2 100)).status =
      OrderStatusPending ∧
    (buildOrder (OrderEnv.mk "id-1" 5 5 true true)
        (CreateOrderRequest.mk "customer-123" "product-456" 2 100)).createdAt =
      (buildOrder (OrderEnv.mk "id-1" 5 5 true true)
        (CreateOrderRequest.mk "customer-123" "product-456" 2 100)).updatedAt := by
  have h := claim_C2_create_valid_request (OrderSvcState.mk [] [])
    (OrderEnv.mk "id-1" 5 5 true true)
    (CreateOrderRequest.mk "customer-123" "product-456" 2 100)
    (by decide) rfl (by decide) (by simp) (by decide)
  exact ⟨by decide, rfl, by decide, by decide, h.1, h.2.2.2.1,
    h.2.2.2.2.2.2.2.mpr rfl⟩

/-- Claim C3: GetOrder is cache-aside — a cache hit is answered from the
cache with no store read and no state change; a cache miss reads the store
exactly once; a store miss fails with the not-found error; a store hit
returns the stored order, repopulating the cache when the cache write
succeeds, and a failed cache write neither fails the call nor changes the
state. -/
theorem claim_C3_get_order_cache_aside (st : OrderSvcState) (env : OrderEnv) (id : String) :
    (∀ o, cacheGet st.cache id = some o →
       (getOrderByID st env id).result = Except.ok o ∧
       (getOrderByID st env id).storeReads = 0 ∧
       (getOrderByID st env id).state = st) ∧
    (cacheGet st.cache id = none →
       (getOrderByID st env id).storeReads = 1 ∧
       (storeGet st.store id = none →
          (getOrderByID st env id).result =
            Except.error (OrderError.notFoundError "order not found") ∧
          (getOrderByID st env id).state = st) ∧
       (∀ o, storeGet st.store id = some o →
          (getOrderByID st env id).result = Except.ok o ∧
          (env.cacheSetOk = true →
             cacheGet (getOrderByID st env id).state.cache id = some o) ∧
          (env.cacheSetOk = false → (getOrderByID st env id).state = st))) := by
  refine ⟨?_, ?_⟩
  · intro o ho
    simp [getOrderByID, ho]
  · intro hc
    refine ⟨?_, ?_, ?_⟩
    · cases hs : storeGet st.store id <;> simp [getOrderByID, hc, hs]
    · intro hs
      simp [getOrderByID, hc, hs]
    · intro o hs
      have hid : o.id = id := by
        unfold storeGet at hs
        have hfind := List.find?_some hs
        simpa using hfind
      refine ⟨?_, ?_, ?_⟩
      · by_cases hset : env.cacheSetOk <;> simp [getOrderByID, hc, hs, hset]
      · intro hset
        have hcs := cacheGet_cacheSet_self st.cache o id hid
        simp only [getOrderByID, hc, hs, hset, if_true]
        exact hcs
      · intro hset
        simp [getOrderByID, hc, hs, hset]

/-- Claim C3 witness: a cache miss followed by a store hit at concrete
inputs, through `claim_C3_get_order_cache_aside`. -/
theorem claim_C3_get_order_cache_aside_witness :
    cacheGet ([] : List (String × Order)) "a" = none ∧
    storeGet [Order.mk "a" "c" "p" 1 10 "pending" 1 1] "a" =
      some (Order.mk "a" "c" "p" 1 10 "pending" 1 1) ∧
    (getOrderByID (OrderSvcState.mk [Order.mk "a" "c" "p" 1 10 "pending" 1 1] [])
        (OrderEnv.mk "x" 0 0 true true) "a").result =
      Except.ok (Order.mk "a" "c" "p" 1 10 "pending" 1 1) ∧
    cacheGet (getOrderByID (OrderSvcState.mk [Order.mk "a" "c" "p" 1 10 "pending" 1 1] [])
        (OrderEnv.mk "x" 0 0 true true) "a").state.cache "a" =
      some (Order.mk "a" "c" "p" 1 10 "pending" 1 1) := by
  have h := claim_C3_get_order_cache_aside
    (OrderSvcState.mk [Order.mk "a" "c" "p" 1 10 "pending" 1 1] [])
    (OrderEnv.mk "x" 0 0 true true) "a"
  obtain ⟨-, h2⟩ := h
  obtain ⟨-, -, h3⟩ := h2 rfl
  obtain ⟨hres, hset, -⟩ := h3 (Order.mk "a" "c" "p" 1 10 "pending" 1 1) (by decide)
  exact ⟨rfl, by decide, hres, hset rfl⟩

/-- Claim C1 (code-bug evidence): at the concrete invalid request with
total_amount = 0, CreateOrder fails with the validation error naming the
offending field and writes nothing to the store — but the HTTP handler
surfaces the failure as status 500, which is not a client error, against
the spec and the repository's own API documentation of a 400 response. -/
theorem claim_C1_validation_not_client_error :
    createOrder (OrderSvcState.mk [] []) (OrderEnv.mk "id-1" 0 0 true true)
        (CreateOrderRequest.mk "customer-123" "product-456" 2 0) =
      (Except.error (OrderError.validationError "total_amount must be greater than 0"),
        OrderSvcState.mk [] []) ∧
    createOrderHttpStatus
        (createOrder (OrderSvcState.mk [] []) (OrderEnv.mk "id-1" 0 0 true true)
          (CreateOrderRequest.mk "customer-123" "product-456" 2 0)).1 = 500 ∧
    ¬ isClientErrorStatus 500 :=
  ⟨by decide, by decide, by decide⟩

/-- Claim C6 counterexample: starting from the empty metrics table with a
cold summary cache and a failing best-effort cache write, two GetSummary
calls with no intervening events return summaries that differ in the
last_updated field, so the results are not identical in all fields. -/
theorem claim_C6_counterexample :
    (getSummary (AnalyticsState.mk [] none) (AnalyticsEnv.mk 0 true false true)).result =
      Except.ok (repoGetSummary [] 0) ∧
    (getSummary (getSummary (AnalyticsState.mk [] none)
          (AnalyticsEnv.mk 0 true false true)).state
        (AnalyticsEnv.mk 1 true false true)).result = Except.ok (repoGetSummary [] 1) ∧
    (repoGetSummary [] 0).lastUpdated ≠ (repoGetSummary [] 1).lastUpdated ∧
    (getSummary (AnalyticsState.mk [] none) (AnalyticsEnv.mk 0 true false true)).result ≠
      (getSummary (getSummary (AnalyticsState.mk [] none)
            (AnalyticsEnv.mk 0 true false true)).state
          (AnalyticsEnv.mk 1 true false true)).result :=
  ⟨by decide, by decide, by decide, by decide⟩

/-- Claim C6 as amended: two GetSummary calls with no intervening events
always agree on total_orders, total_revenue and average_order_size; all
fields (last_updated included) agree whenever the first call's best-effort
cache write succeeds — only a failed cache write lets the second call
recompute last_updated at a later clock reading. -/
theorem claim_C6_get_summary_idempotent (st : AnalyticsState)
    (env1 env2 : AnalyticsEnv) (s1 s2 : AnalyticsSummary)
    (h1 : (getSummary st env1).result = Except.ok s1)
    (h2 : (getSummary (getSummary st env1).state env2).result = Except.ok s2) :
    (s1.totalOrders = s2.totalOrders ∧ s1.totalRevenue = s2.totalRevenue ∧
     s1.averageOrderSize = s2.averageOrderSize) ∧
    (env1.cacheSetOk = true → s1 = s2) := by
  cases hc : st.summaryCache with
  | some s0 =>
    simp only [getSummary, hc, Except.ok.injEq] at h1 h2
    subst h1
    subst h2
    exact ⟨⟨rfl, rfl, rfl⟩, fun _ => rfl⟩
  | none =>
    cases hdb1 : env1.dbOk with
    | false => simp [getSummary, hc, hdb1] at h1
    | true =>
      cases hset : env1.cacheSetOk with
      | true =>
        simp only [getSummary, hc, hdb1, if_true, hset, Except.ok.injEq] at h1 h2
        subst h1
        subst h2
        exact ⟨⟨rfl, rfl, rfl⟩, fun _ => rfl⟩
      | false =>
        simp only [getSummary, hc, hdb1, if_true, hset, Bool.false_eq_true, if_false,
          Except.ok.injEq] at h1 h2
        cases hdb2 : env2.dbOk with
        | false => simp [hdb2] at h2
        | true =>
          simp only [hdb2, if_true, Except.ok.injEq] at h2
          subst h1
          subst h2
          refine ⟨⟨rfl, rfl, rfl⟩, ?_⟩
          intro hcontra
          simp [hset] at hcontra

/-- Claim C6 amended-theorem witness: two concrete calls on the empty
table with a healthy cache, through `claim_C6_get_summary_idempotent`. -/
theorem claim_C6_get_summary_idempotent_witness :
    (getSummary (AnalyticsState.mk [] none) (AnalyticsEnv.mk 0 true true true)).result =
      Except.ok (repoGetSummary [] 0) ∧
    (getSummary (getSummary (AnalyticsState.mk [] none)
          (AnalyticsEnv.mk 0 true true true)).state
        (AnalyticsEnv.mk 1 true true true)).result = Except.ok (repoGetSummary [] 0) ∧
    (AnalyticsEnv.mk 0 true true true).cacheSetOk = true ∧
    repoGetSummary [] 0 = repoGetSummary [] 0 := by
  have h := claim_C6_get_summary_idempotent (AnalyticsState.mk [] none)
    (AnalyticsEnv.mk 0 true true true) (AnalyticsEnv.mk 1 true true true)
    (repoGetSummary [] 0) (repoGetSummary [] 0) (by decide) (by decide)
  exact ⟨by decide, by decide, rfl, h.2 rfl⟩

/-- Concrete state for the C8 pagination scenario: three orders created in
sequence at ticks 1, 2 and 3. -/
def c8State3 : OrderSvcState :=
  (createOrder (createOrder (createOrder (OrderSvcState.mk [] [])
      (OrderEnv.mk "id-1" 1 1 true true) (CreateOrderRequest.mk "c1" "p1" 1 10)).2
      (OrderEnv.mk "id-2" 2 2 true true) (CreateOrderRequest.mk "c2" "p2" 1 20)).2
      (OrderEnv.mk "id-3" 3 3 true true) (CreateOrderRequest.mk "c3" "p3" 1 30)).2

/-- Claim C8: ListOrders returns orders ordered by creation time descending
and at most limit items (for limit in the meaningful range 1 ≤ limit); in
particular after creating three orders, ListOrders with limit 1 and offset
0 returns exactly the single most recently created order. -/
theorem claim_C8_list_orders_sorted :
    (∀ (st : OrderSvcState) (limit offset : Int), 1 ≤ limit →
       DescByCreated (listOrders st limit offset).orders ∧
       (((listOrders st limit offset).orders.length : Int) ≤ limit)) ∧
    (listOrders c8State3 1 0).orders =
      [buildOrder (OrderEnv.mk "id-3" 3 3 true true) (CreateOrderRequest.mk "c3" "p3" 1 30)] := by
  constructor
  · intro st limit offset hlim
    constructor
    · exact descByCreated_repoList st.store (clampLimit limit) (clampOffset offset)
    · have hlen := repoList_length_le st.store (clampLimit limit) (clampOffset offset)
      have hcl : clampLimit limit ≤ limit := by
        unfold clampLimit; dsimp only; split_ifs <;> omega
      have hcl0 : 0 ≤ clampLimit limit := by
        unfold clampLimit; dsimp only; split_ifs <;> omega
      show ((repoList st.store (clampLimit limit) (clampOffset offset)).length : Int) ≤ limit
      omega
  · decide

/-- Claim C8 witness: the sortedness and length bound at the concrete state
of three created orders, through `claim_C8_list_orders_sorted`. -/
theorem claim_C8_list_orders_sorted_witness :
    (1 : Int) ≤ 2 ∧ DescByCreated (listOrders c8State3 2 0).orders ∧
    ((listOrders c8State3 2 0).orders.length : Int) ≤ 2 := by
  have h := claim_C8_list_orders_sorted.1 c8State3 2 0 (by decide)
  exact ⟨by decide, h.1, h.2⟩

end EventOrder
